import Mathlib

/-!
Shallow embedding of the yggdrasil data-message dispatcher
(`DataProcessor.HandleDataRecvSignal` and
`DataProcessor.HandleDataReturnSignal`).

The two handler bodies are translated statement-by-statement from the Go
source.  Collaborators that live outside the shown source are modelled at
their interface boundary:

* the record store (hashicorp go-memdb): a lookup (`Txn.First`) either
  fails with a backend error, returns an absence value (`nil, nil`), or
  returns the single matching record; a write (`Txn.Insert` on a table
  with a unique id index) replaces the record with the same key or
  appends a new one.  Backend errors of the individual calls are injected
  through per-call-site boolean flags in the environment.
* the mutual-TLS HTTP client: a request either fails at the transport
  level, fails while the response body is read, or yields a status code
  and a body.
* `encoding/json.Unmarshal` of the content into a URL string: an oracle
  from bytes to an optional string.

A Go type assertion `obj.(Data)` applied to a nil interface value panics;
the per-message closures contain no `recover`, so such a panic escapes the
closure and kills the handler goroutine.  The embedding records this as the
`Outcome.panicked` result, and the loop functions stop at it.
-/

namespace Yggdrasil

/-- Byte payloads (Go `[]byte`), one natural number per byte. -/
abbrev Bytes := List Nat

/-- Modelled from the spec: the Message record (`Data`) with the five
fields the dispatcher reads — `MessageID`, `ResponseTo`, `Directive`,
`Metadata`, `Content`.  The struct declaration itself is outside the shown
source; the field set is exactly the set used by the two handlers. -/
structure Data where
  MessageID : String
  ResponseTo : String
  Directive : String
  Metadata : List (String × String)
  Content : Bytes
deriving DecidableEq, Repr

/-- Modelled from the spec: the Worker-registration record with the two
fields the dispatcher reads — `Handler` (the routing index) and
`detachedContent`. -/
structure Worker where
  Handler : String
  detachedContent : Bool
deriving DecidableEq, Repr

/-- Topic on which a processed message id is published (source constant
`SignalDataProcess`). -/
def SignalDataProcess : String := "data-process"

/-- Topic on which a consumed message id is published (source constant
`SignalDataConsume`). -/
def SignalDataConsume : String := "data-consume"

/-- The record store: the Message table and the Worker table. -/
structure DB where
  data : List Data
  workers : List Worker
deriving DecidableEq, Repr

/-- Lookup `tx.First(tableNameData, indexNameID, id)`: the single record
whose unique `MessageID` index matches, or absence. -/
def firstData (db : DB) (id : String) : Option Data :=
  db.data.find? (fun d => d.MessageID = id)

/-- Lookup `tx.First(tableNameWorker, indexNameHandler, h)`: the single
record whose unique `Handler` index matches, or absence. -/
def firstWorker (db : DB) (h : String) : Option Worker :=
  db.workers.find? (fun w => w.Handler = h)

/-- Write `tx.Insert(tableNameData, d)` on a table with a unique id index:
replace the record carrying the same `MessageID`, or append. -/
def insertData (tbl : List Data) (d : Data) : List Data :=
  if tbl.any (fun x => x.MessageID = d.MessageID) then
    tbl.map (fun x => if x.MessageID = d.MessageID then d else x)
  else
    tbl ++ [d]

/-- Result of one HTTP exchange as seen by the handler: a transport-level
error from `Get`/`Do`, an error from `ioutil.ReadAll` on the body, or a
complete response with status code and raw body bytes. -/
inductive HTTPRes
  | transportErr
  | bodyReadErr
  | resp (status : Nat) (body : Bytes)
deriving DecidableEq, Repr

/-- How one per-message closure finished: a normal return (either the
success path or a logged early `return`), or a runtime panic from a type
assertion on a nil interface value. -/
inductive Outcome
  | ok
  | panicked
deriving DecidableEq, Repr

/-- Environment of the receive handler: error injection for each store
call site, the JSON-unmarshal oracle, and the HTTP GET oracle. -/
structure RecvEnv where
  dataLookupErr : Bool
  workerLookupErr : Bool
  insertErr : Bool
  unmarshalURL : Bytes → Option String
  httpGet : String → HTTPRes

/-- Result of processing one value on the receive path: the store after
the closure ran, the values published (topic, value) in order, and how the
closure finished. -/
structure RecvResult where
  db : DB
  emits : List (String × String)
  outcome : Outcome
deriving DecidableEq, Repr

/-- Final write-back of the receive path (source lines 129-139): a
read-write transaction inserting the message, `Abort` and return on
failure, otherwise `Commit` followed by the `SignalDataProcess` emit. -/
def commitRecv (env : RecvEnv) (db : DB) (dm : Data) : RecvResult :=
  if env.insertErr then ⟨db, [], .ok⟩
  else ⟨⟨insertData db.data dm, db.workers⟩, [(SignalDataProcess, dm.MessageID)], .ok⟩

/-- One iteration of `HandleDataRecvSignal` (source lines 62-140),
statement by statement: look up the message (error → logged return;
absence → nil type assertion panic), look up the worker (error → logged
return; absence → emit `SignalDataConsume` and return), then for a
detached worker unmarshal the URL, GET it, fail on transport or read
error or status ≥ 400, on success replace `Content` with the body; finally
write the record back and emit `SignalDataProcess`. -/
def handleDataRecvOne (env : RecvEnv) (db : DB) (messageID : String) : RecvResult :=
  if env.dataLookupErr then ⟨db, [], .ok⟩ else
  match firstData db messageID with
  | none => ⟨db, [], .panicked⟩
  | some dataMessage =>
    if env.workerLookupErr then ⟨db, [], .ok⟩ else
    match firstWorker db dataMessage.Directive with
    | none => ⟨db, [(SignalDataConsume, dataMessage.MessageID)], .ok⟩
    | some worker =>
      if worker.detachedContent then
        match env.unmarshalURL dataMessage.Content with
        | none => ⟨db, [], .ok⟩
        | some url =>
          match env.httpGet url with
          | .transportErr => ⟨db, [], .ok⟩
          | .bodyReadErr => ⟨db, [], .ok⟩
          | .resp status body =>
            if 400 ≤ status then ⟨db, [], .ok⟩
            else commitRecv env db { dataMessage with Content := body }
      else commitRecv env db dataMessage

/-- Result of a handler loop run: final store, all published values in
order, the message ids taken from the stream in order, and whether the
loop survived (false once a closure panicked). -/
structure LoopResult where
  db : DB
  emits : List (String × String)
  processed : List String
  completed : Bool
deriving DecidableEq, Repr

/-- The `for e := range c` loop of `HandleDataRecvSignal`: values are
taken from the stream strictly in order, and each one is fully processed
before the next is taken; a panic escapes the closure and ends the loop. -/
def runRecvLoop (env : RecvEnv) (db : DB) : List String → LoopResult
  | [] => ⟨db, [], [], true⟩
  | m :: ms =>
    match (handleDataRecvOne env db m).outcome with
    | .panicked => ⟨(handleDataRecvOne env db m).db, (handleDataRecvOne env db m).emits, [m], false⟩
    | .ok =>
      ⟨(runRecvLoop env (handleDataRecvOne env db m).db ms).db,
       (handleDataRecvOne env db m).emits ++ (runRecvLoop env (handleDataRecvOne env db m).db ms).emits,
       m :: (runRecvLoop env (handleDataRecvOne env db m).db ms).processed,
       (runRecvLoop env (handleDataRecvOne env db m).db ms).completed⟩

/-- One outbound delivery request of the return path: target URL
(the reply's `Directive`), headers (the reply's `Metadata`, values
whitespace-trimmed), body (the reply's `Content`). -/
structure HTTPCall where
  url : String
  headers : List (String × String)
  body : Bytes
deriving DecidableEq, Repr

/-- The request `HandleDataReturnSignal` builds for a detached worker
(source lines 185-189). -/
def returnCall (dataMessage : Data) : HTTPCall :=
  ⟨dataMessage.Directive,
   dataMessage.Metadata.map (fun kv => (kv.1, kv.2.trim)),
   dataMessage.Content⟩

/-- Environment of the return handler: error injection for each store
call site and the HTTP delivery oracle (`http.NewRequest` plus
`client.Do`, at the transport interface boundary; the source discards the
error value of `NewRequest` itself). -/
structure ReturnEnv where
  replyLookupErr : Bool
  origLookupErr : Bool
  workerLookupErr : Bool
  httpDo : HTTPCall → HTTPRes

/-- Result of processing one value on the return path: the values
published in order, the HTTP requests issued in order, and how the closure
finished.  The return path never writes to the store. -/
structure ReturnResult where
  emits : List (String × String)
  calls : List HTTPCall
  outcome : Outcome
deriving DecidableEq, Repr

/-- One iteration of `HandleDataReturnSignal` (source lines 148-218),
statement by statement: look up the reply, the original (via the reply's
`ResponseTo`), and the worker for the original's `Directive` — for each,
a store error is a logged return and an absent record is a nil type
assertion panic; for a detached worker POST the reply's content to the
reply's `Directive`, and a transport error, read error, or status ≥ 400
is a logged return; only then emit `SignalDataConsume`. -/
def handleDataReturnOne (env : ReturnEnv) (db : DB) (messageID : String) : ReturnResult :=
  if env.replyLookupErr then ⟨[], [], .ok⟩ else
  match firstData db messageID with
  | none => ⟨[], [], .panicked⟩
  | some dataMessage =>
    if env.origLookupErr then ⟨[], [], .ok⟩ else
    match firstData db dataMessage.ResponseTo with
    | none => ⟨[], [], .panicked⟩
    | some originalMessage =>
      if env.workerLookupErr then ⟨[], [], .ok⟩ else
      match firstWorker db originalMessage.Directive with
      | none => ⟨[], [], .panicked⟩
      | some worker =>
        if worker.detachedContent then
          match env.httpDo (returnCall dataMessage) with
          | .transportErr => ⟨[], [returnCall dataMessage], .ok⟩
          | .bodyReadErr => ⟨[], [returnCall dataMessage], .ok⟩
          | .resp status _ =>
            if 400 ≤ status then ⟨[], [returnCall dataMessage], .ok⟩
            else ⟨[(SignalDataConsume, dataMessage.MessageID)], [returnCall dataMessage], .ok⟩
        else ⟨[(SignalDataConsume, dataMessage.MessageID)], [], .ok⟩

/-- Result of a return-handler loop run (the return path never writes to
the store, so no store component). -/
structure ReturnLoopResult where
  emits : List (String × String)
  processed : List String
  completed : Bool
deriving DecidableEq, Repr

/-- The `for e := range c` loop of `HandleDataReturnSignal`. -/
def runReturnLoop (env : ReturnEnv) (db : DB) : List String → ReturnLoopResult
  | [] => ⟨[], [], true⟩
  | m :: ms =>
    match (handleDataReturnOne env db m).outcome with
    | .panicked => ⟨(handleDataReturnOne env db m).emits, [m], false⟩
    | .ok =>
      ⟨(handleDataReturnOne env db m).emits ++ (runReturnLoop env db ms).emits,
       m :: (runReturnLoop env db ms).processed,
       (runReturnLoop env db ms).completed⟩

/-- Uniqueness of `MessageID` over the Message table. -/
def uniqueIDs (tbl : List Data) : Prop :=
  (tbl.map (fun d => d.MessageID)).Nodup

instance (tbl : List Data) : Decidable (uniqueIDs tbl) :=
  List.nodupDecidable _

/-! Helper lemmas about the store write. -/

theorem find?_map_replace (tbl : List Data) (d : Data)
    (h : tbl.any (fun x => x.MessageID = d.MessageID) = true) :
    (tbl.map (fun x => if x.MessageID = d.MessageID then d else x)).find?
      (fun x => x.MessageID = d.MessageID) = some d := by
  induction tbl with
  | nil => simp at h
  | cons x xs ih =>
    by_cases hx : x.MessageID = d.MessageID
    · simp [List.find?_cons, hx]
    · have h' : xs.any (fun x => x.MessageID = d.MessageID) = true := by
        simp only [List.any_cons, Bool.or_eq_true, decide_eq_true_eq] at h
        rcases h with h | h
        · exact absurd h hx
        · exact h
      simp [List.find?_cons, hx, ih h']

theorem find?_insertData (tbl : List Data) (d : Data) :
    (insertData tbl d).find? (fun x => x.MessageID = d.MessageID) = some d := by
  unfold insertData
  by_cases h : tbl.any (fun x => x.MessageID = d.MessageID) = true
  · rw [if_pos h]
    exact find?_map_replace tbl d h
  · rw [if_neg h]
    have hnone : tbl.find? (fun x => x.MessageID = d.MessageID) = none := by
      rw [List.find?_eq_none]
      intro x hx hpx
      exact h (List.any_eq_true.mpr ⟨x, hx, hpx⟩)
    rw [List.find?_append, hnone]
    simp

theorem insertData_ids_of_mem (tbl : List Data) (d : Data)
    (h : tbl.any (fun x => x.MessageID = d.MessageID) = true) :
    (insertData tbl d).map (fun x => x.MessageID) = tbl.map (fun x => x.MessageID) := by
  unfold insertData
  rw [if_pos h, List.map_map]
  apply List.map_congr_left
  intro x _
  by_cases hx : x.MessageID = d.MessageID
  · simp [Function.comp, hx]
  · simp [Function.comp, hx]

theorem uniqueIDs_insertData (tbl : List Data) (d : Data) (h : uniqueIDs tbl) :
    uniqueIDs (insertData tbl d) := by
  by_cases hmem : tbl.any (fun x => x.MessageID = d.MessageID) = true
  · unfold uniqueIDs
    rw [insertData_ids_of_mem tbl d hmem]
    exact h
  · unfold uniqueIDs insertData
    rw [if_neg hmem, List.map_append]
    refine List.Nodup.append h (by simp) ?_
    intro a ha hb
    simp only [List.map_cons, List.map_nil, List.mem_cons, List.not_mem_nil, or_false] at hb
    subst hb
    rcases List.mem_map.mp ha with ⟨x, hx, hx'⟩
    exact hmem (List.any_eq_true.mpr ⟨x, hx, by simp [hx']⟩)

theorem insertData_length_of_mem (tbl : List Data) (d : Data)
    (h : tbl.any (fun x => x.MessageID = d.MessageID) = true) :
    (insertData tbl d).length = tbl.length := by
  unfold insertData
  rw [if_pos h, List.length_map]

/-! Helper lemmas about the handlers. -/

theorem recv_panic_iff (env : RecvEnv) (db : DB) (m : String) :
    (handleDataRecvOne env db m).outcome = Outcome.panicked ↔
      env.dataLookupErr = false ∧ firstData db m = none := by
  unfold handleDataRecvOne commitRecv
  repeat' split
  all_goals simp_all

theorem runRecvLoop_cons_ok (env : RecvEnv) (db : DB) (m : String) (ms : List String)
    (h : (handleDataRecvOne env db m).outcome = Outcome.ok) :
    runRecvLoop env db (m :: ms) =
      ⟨(runRecvLoop env (handleDataRecvOne env db m).db ms).db,
       (handleDataRecvOne env db m).emits ++ (runRecvLoop env (handleDataRecvOne env db m).db ms).emits,
       m :: (runRecvLoop env (handleDataRecvOne env db m).db ms).processed,
       (runRecvLoop env (handleDataRecvOne env db m).db ms).completed⟩ := by
  simp only [runRecvLoop, h]

theorem runReturnLoop_cons_ok (env : ReturnEnv) (db : DB) (m : String) (ms : List String)
    (h : (handleDataReturnOne env db m).outcome = Outcome.ok) :
    runReturnLoop env db (m :: ms) =
      ⟨(handleDataReturnOne env db m).emits ++ (runReturnLoop env db ms).emits,
       m :: (runReturnLoop env db ms).processed,
       (runReturnLoop env db ms).completed⟩ := by
  simp only [runReturnLoop, h]

/-! Claim theorems. -/

/-- C4: for every inbound message whose worker has detachedContent = true
and whose GET succeeds with status 200, the Message record stored after
the commit has Content equal byte-for-byte to the raw HTTP response body,
and the message's MessageID is emitted exactly once on the "ready"
(data-process) topic. -/
theorem C4_detached_success (env : RecvEnv) (db : DB) (id : String)
    (dm : Data) (w : Worker) (url : String) (body : Bytes)
    (hf1 : env.dataLookupErr = false) (hf2 : env.workerLookupErr = false)
    (hf3 : env.insertErr = false)
    (h1 : firstData db id = some dm)
    (h2 : firstWorker db dm.Directive = some w)
    (h3 : w.detachedContent = true)
    (h4 : env.unmarshalURL dm.Content = some url)
    (h5 : env.httpGet url = HTTPRes.resp 200 body) :
    firstData (handleDataRecvOne env db id).db dm.MessageID =
        some { dm with Content := body } ∧
    (handleDataRecvOne env db id).emits = [(SignalDataProcess, dm.MessageID)] := by
  have hred : handleDataRecvOne env db id =
      ⟨⟨insertData db.data { dm with Content := body }, db.workers⟩,
       [(SignalDataProcess, dm.MessageID)], Outcome.ok⟩ := by
    simp [handleDataRecvOne, commitRecv, hf1, hf2, hf3, h1, h2, h3, h4, h5]
  rw [hred]
  exact ⟨find?_insertData db.data { dm with Content := body }, rfl⟩

def dbW4 : DB := ⟨[⟨"m2", "", "fetch", [], [1]⟩], [⟨"fetch", true⟩]⟩

def envW4 : RecvEnv :=
  ⟨false, false, false, fun _ => some "u", fun _ => HTTPRes.resp 200 [7, 8]⟩

theorem C4_witness :
    firstData (handleDataRecvOne envW4 dbW4 "m2").db "m2" =
        some ⟨"m2", "", "fetch", [], [7, 8]⟩ ∧
    (handleDataRecvOne envW4 dbW4 "m2").emits = [(SignalDataProcess, "m2")] :=
  C4_detached_success envW4 dbW4 "m2" ⟨"m2", "", "fetch", [], [1]⟩ ⟨"fetch", true⟩
    "u" [7, 8] rfl rfl rfl (by decide) (by decide) rfl rfl rfl

/-- C5: for every inbound message whose worker has detachedContent = true
and whose GET returns a response status ≥ 400, the receive handler emits
no "ready" value and performs no store write, so the stored Message record
is unchanged from before processing. -/
theorem C5_detached_api_failure (env : RecvEnv) (db : DB) (id : String)
    (dm : Data) (w : Worker) (url : String) (s : Nat) (body : Bytes)
    (hf1 : env.dataLookupErr = false) (hf2 : env.workerLookupErr = false)
    (h1 : firstData db id = some dm)
    (h2 : firstWorker db dm.Directive = some w)
    (h3 : w.detachedContent = true)
    (h4 : env.unmarshalURL dm.Content = some url)
    (h5 : env.httpGet url = HTTPRes.resp s body)
    (hs : 400 ≤ s) :
    handleDataRecvOne env db id = ⟨db, [], Outcome.ok⟩ := by
  simp [handleDataRecvOne, hf1, hf2, h1, h2, h3, h4, h5, hs]

def dbW5 : DB := ⟨[⟨"m5", "", "fetch", [], [1]⟩], [⟨"fetch", true⟩]⟩

def envW5 : RecvEnv :=
  ⟨false, false, false, fun _ => some "u", fun _ => HTTPRes.resp 404 [9]⟩

theorem C5_witness :
    handleDataRecvOne envW5 dbW5 "m5" = ⟨dbW5, [], Outcome.ok⟩ :=
  C5_detached_api_failure envW5 dbW5 "m5" ⟨"m5", "", "fetch", [], [1]⟩ ⟨"fetch", true⟩
    "u" 404 [9] rfl rfl (by decide) (by decide) rfl rfl rfl (by decide)

/-- C6: for every inbound message whose Directive matches no registered
Worker record, the receive handler emits exactly one retirement value
equal to that message's MessageID on the "retired" (data-consume) topic,
performs no store write, and leaves the record's Content unchanged. -/
theorem C6_undeliverable_retired (env : RecvEnv) (db : DB) (id : String)
    (dm : Data)
    (hf1 : env.dataLookupErr = false) (hf2 : env.workerLookupErr = false)
    (h1 : firstData db id = some dm)
    (h2 : firstWorker db dm.Directive = none) :
    handleDataRecvOne env db id = ⟨db, [(SignalDataConsume, dm.MessageID)], Outcome.ok⟩ := by
  simp [handleDataRecvOne, hf1, hf2, h1, h2]

def dbW6 : DB := ⟨[⟨"m1", "", "nope", [], [3]⟩], []⟩

def envW6 : RecvEnv :=
  ⟨false, false, false, fun _ => none, fun _ => HTTPRes.transportErr⟩

theorem C6_witness :
    handleDataRecvOne envW6 dbW6 "m1" = ⟨dbW6, [(SignalDataConsume, "m1")], Outcome.ok⟩ :=
  C6_undeliverable_retired envW6 dbW6 "m1" ⟨"m1", "", "nope", [], [3]⟩
    rfl rfl (by decide) (by decide)

def dbX1 : DB :=
  ⟨[⟨"r1", "o1", "post-url", [], [5]⟩, ⟨"o1", "", "w", [], [1]⟩],
   [⟨"w", true⟩]⟩

def envX1 : ReturnEnv := ⟨false, false, false, fun _ => HTTPRes.transportErr⟩

/-- C1 counterexample: a reply whose original worker is detached, whose
delivery attempt is made (one HTTP request is issued) and fails at the
transport level — and no value at all is emitted, so the MessageID is not
retired on the data-consume topic.  Transport failure does suppress the
retirement signal, refuting the claim. -/
theorem C1_counterexample :
    (handleDataReturnOne envX1 dbX1 "r1").calls = [⟨"post-url", [], [5]⟩] ∧
    (handleDataReturnOne envX1 dbX1 "r1").emits = [] := by
  decide

/-- C1 amended: for a reply whose original worker is detached, the
delivery attempt is always issued, but the reply's MessageID is emitted on
the data-consume topic exactly when the delivery succeeds with a response
status below 400; a transport failure, a body-read failure, or a status
≥ 400 ends processing without the retirement signal. -/
theorem C1_retire_iff_delivered (env : ReturnEnv) (db : DB) (id : String)
    (reply orig : Data) (w : Worker)
    (hf1 : env.replyLookupErr = false) (hf2 : env.origLookupErr = false)
    (hf3 : env.workerLookupErr = false)
    (h1 : firstData db id = some reply)
    (h2 : firstData db reply.ResponseTo = some orig)
    (h3 : firstWorker db orig.Directive = some w)
    (h4 : w.detachedContent = true) :
    ((handleDataReturnOne env db id).emits = [(SignalDataConsume, reply.MessageID)] ↔
      ∃ s b, env.httpDo (returnCall reply) = HTTPRes.resp s b ∧ s < 400) ∧
    (handleDataReturnOne env db id).calls = [returnCall reply] := by
  cases hdo : env.httpDo (returnCall reply) with
  | transportErr =>
    constructor
    · simp [handleDataReturnOne, hf1, hf2, hf3, h1, h2, h3, h4, hdo]
    · simp [handleDataReturnOne, hf1, hf2, hf3, h1, h2, h3, h4, hdo]
  | bodyReadErr =>
    constructor
    · simp [handleDataReturnOne, hf1, hf2, hf3, h1, h2, h3, h4, hdo]
    · simp [handleDataReturnOne, hf1, hf2, hf3, h1, h2, h3, h4, hdo]
  | resp s b =>
    by_cases hs : 400 ≤ s
    · constructor
      · simp only [handleDataReturnOne, hf1, hf2, hf3, h1, h2, h3, h4, hdo, if_pos hs]
        constructor
        · intro hemit
          simp at hemit
        · rintro ⟨s', b', hsb, hlt⟩
          cases hsb
          omega
      · simp [handleDataReturnOne, hf1, hf2, hf3, h1, h2, h3, h4, hdo, hs]
    · constructor
      · simp only [handleDataReturnOne, hf1, hf2, hf3, h1, h2, h3, h4, hdo, if_neg hs]
        constructor
        · intro _
          exact ⟨s, b, rfl, by omega⟩
        · intro _
          simp
      · simp [handleDataReturnOne, hf1, hf2, hf3, h1, h2, h3, h4, hdo, hs]

def dbY1 : DB :=
  ⟨[⟨"r1", "o1", "post-url", [], [5]⟩, ⟨"o1", "", "w", [], [1]⟩], [⟨"w", true⟩]⟩

def envY1 : ReturnEnv := ⟨false, false, false, fun _ => HTTPRes.resp 200 [1]⟩

theorem C1_amended_witness :
    (((handleDataReturnOne envY1 dbY1 "r1").emits = [(SignalDataConsume, "r1")] ↔
      ∃ s b, envY1.httpDo (returnCall ⟨"r1", "o1", "post-url", [], [5]⟩) =
          HTTPRes.resp s b ∧ s < 400) ∧
     (handleDataReturnOne envY1 dbY1 "r1").calls =
        [returnCall ⟨"r1", "o1", "post-url", [], [5]⟩]) :=
  C1_retire_iff_delivered envY1 dbY1 "r1" ⟨"r1", "o1", "post-url", [], [5]⟩
    ⟨"o1", "", "w", [], [1]⟩ ⟨"w", true⟩ rfl rfl rfl (by decide) (by decide)
    (by decide) rfl

def dbX2 : DB := ⟨[], []⟩

def envX2 : RecvEnv :=
  ⟨false, false, false, fun _ => none, fun _ => HTTPRes.transportErr⟩

/-- C2 counterexample: a value naming no stored Message record makes the
receive handler hit a type assertion on the store's absence value; the
closure panics, the loop dies, and the second queued message is never
processed — the failure is not confined to the one bad message. -/
theorem C2_counterexample :
    (runRecvLoop envX2 dbX2 ["m1", "m2"]).completed = false ∧
    (runRecvLoop envX2 dbX2 ["m1", "m2"]).processed = ["m1"] := by
  decide

/-- C2 amended: store lookup errors, transport errors, malformed content,
API response errors and write failures are each confined — the closure
returns normally (`Outcome.ok`) and the loop goes on to the next message,
on both handlers.  But absence of the Message record on the receive path
is precisely the condition under which the closure panics instead,
halting the loop (the return path panics likewise on its three unchecked
lookups). -/
theorem C2_failure_isolation (env : RecvEnv) (renv : ReturnEnv) (db : DB)
    (m : String) (ms : List String) :
    ((handleDataRecvOne env db m).outcome = Outcome.panicked ↔
      env.dataLookupErr = false ∧ firstData db m = none) ∧
    ((handleDataRecvOne env db m).outcome = Outcome.ok →
      (runRecvLoop env db (m :: ms)).processed =
          m :: (runRecvLoop env (handleDataRecvOne env db m).db ms).processed ∧
      (runRecvLoop env db (m :: ms)).completed =
          (runRecvLoop env (handleDataRecvOne env db m).db ms).completed) ∧
    ((handleDataReturnOne renv db m).outcome = Outcome.ok →
      (runReturnLoop renv db (m :: ms)).processed =
          m :: (runReturnLoop renv db ms).processed ∧
      (runReturnLoop renv db (m :: ms)).completed =
          (runReturnLoop renv db ms).completed) := by
  refine ⟨recv_panic_iff env db m, fun h => ?_, fun h => ?_⟩
  · rw [runRecvLoop_cons_ok env db m ms h]
    exact ⟨rfl, rfl⟩
  · rw [runReturnLoop_cons_ok renv db m ms h]
    exact ⟨rfl, rfl⟩

def dbX3 : DB := ⟨[⟨"r3", "gone", "u", [], []⟩], []⟩

def envX3 : ReturnEnv := ⟨false, false, false, fun _ => HTTPRes.transportErr⟩

/-- C3 counterexample: a reply whose `ResponseTo` resolves to no record.
No retirement value is emitted — that half of the claim holds — but the
handler does not report the failure and return normally: the closure
panics on the nil type assertion (an early logged return is `Outcome.ok`
in this embedding, and the outcome here is not that). -/
theorem C3_counterexample :
    (handleDataReturnOne envX3 dbX3 "r3").outcome = Outcome.panicked ∧
    (handleDataReturnOne envX3 dbX3 "r3").emits = [] := by
  decide

/-- C3 amended: for every reply message whose `ResponseTo` does not
resolve to an existing Message record, no "retired" value is emitted and
no HTTP call is made — but instead of reporting and stopping, the handler
panics on the unchecked type assertion over the absent lookup result. -/
theorem C3_missing_original_panics (env : ReturnEnv) (db : DB) (id : String)
    (reply : Data)
    (hf1 : env.replyLookupErr = false) (hf2 : env.origLookupErr = false)
    (h1 : firstData db id = some reply)
    (h2 : firstData db reply.ResponseTo = none) :
    handleDataReturnOne env db id = ⟨[], [], Outcome.panicked⟩ := by
  simp [handleDataReturnOne, hf1, hf2, h1, h2]

def dbW3 : DB := ⟨[⟨"r4", "void", "u", [], [2]⟩], []⟩

def envW3 : ReturnEnv := ⟨false, false, false, fun _ => HTTPRes.resp 200 []⟩

theorem C3_witness :
    handleDataReturnOne envW3 dbW3 "r4" = ⟨[], [], Outcome.panicked⟩ :=
  C3_missing_original_panics envW3 dbW3 "r4" ⟨"r4", "void", "u", [], [2]⟩
    rfl rfl (by decide) (by decide)

/-- C7: for every reply message whose original message's worker has
detachedContent = false, the return handler emits a "retired" value equal
to the reply's MessageID without making any HTTP call. -/
theorem C7_nondetached_retired (env : ReturnEnv) (db : DB) (id : String)
    (reply orig : Data) (w : Worker)
    (hf1 : env.replyLookupErr = false) (hf2 : env.origLookupErr = false)
    (hf3 : env.workerLookupErr = false)
    (h1 : firstData db id = some reply)
    (h2 : firstData db reply.ResponseTo = some orig)
    (h3 : firstWorker db orig.Directive = some w)
    (h4 : w.detachedContent = false) :
    handleDataReturnOne env db id =
      ⟨[(SignalDataConsume, reply.MessageID)], [], Outcome.ok⟩ := by
  simp [handleDataReturnOne, hf1, hf2, hf3, h1, h2, h3, h4]

def dbW7 : DB :=
  ⟨[⟨"r1", "o1", "dest", [], [2]⟩, ⟨"o1", "", "echo", [], [1]⟩], [⟨"echo", false⟩]⟩

def envW7 : ReturnEnv := ⟨false, false, false, fun _ => HTTPRes.transportErr⟩

theorem C7_witness :
    handleDataReturnOne envW7 dbW7 "r1" =
      ⟨[(SignalDataConsume, "r1")], [], Outcome.ok⟩ :=
  C7_nondetached_retired envW7 dbW7 "r1" ⟨"r1", "o1", "dest", [], [2]⟩
    ⟨"o1", "", "echo", [], [1]⟩ ⟨"echo", false⟩ rfl rfl rfl (by decide)
    (by decide) (by decide) rfl

/-- C8: MessageID uniqueness is an invariant preserved by the receive
handler: assuming MessageID is unique across all Message records before
the handler runs, the write-back commit replaces the record carrying the
same MessageID instead of adding a second one, so uniqueness holds
afterwards and the table never grows. -/
theorem C8_unique_preserved (env : RecvEnv) (db : DB) (id : String)
    (h : uniqueIDs db.data) :
    uniqueIDs (handleDataRecvOne env db id).db.data ∧
      (handleDataRecvOne env db id).db.data.length = db.data.length := by
  have hcommit : ∀ d : Data, db.data.any (fun x => x.MessageID = d.MessageID) = true →
      uniqueIDs (commitRecv env db d).db.data ∧
        (commitRecv env db d).db.data.length = db.data.length := by
    intro d hd
    unfold commitRecv
    split
    · exact ⟨h, rfl⟩
    · exact ⟨uniqueIDs_insertData db.data d h, insertData_length_of_mem db.data d hd⟩
  unfold handleDataRecvOne
  split
  · exact ⟨h, rfl⟩
  · split
    · exact ⟨h, rfl⟩
    · next dm heqd =>
      split
      · exact ⟨h, rfl⟩
      · split
        · exact ⟨h, rfl⟩
        · next w heqw =>
          have hmem : db.data.any (fun x => x.MessageID = dm.MessageID) = true :=
            List.any_eq_true.mpr ⟨dm, List.mem_of_find?_eq_some heqd, by simp⟩
          split
          · split
            · exact ⟨h, rfl⟩
            · next url hequ =>
              split
              · exact ⟨h, rfl⟩
              · exact ⟨h, rfl⟩
              · next status body heqg =>
                split
                · exact ⟨h, rfl⟩
                · exact hcommit { dm with Content := body } hmem
          · exact hcommit dm hmem

def dbW8 : DB := ⟨[⟨"a", "", "d1", [], [1]⟩, ⟨"b", "", "d1", [], [2]⟩], [⟨"d1", false⟩]⟩

def envW8 : RecvEnv :=
  ⟨false, false, false, fun _ => none, fun _ => HTTPRes.transportErr⟩

theorem C8_witness :
    uniqueIDs (handleDataRecvOne envW8 dbW8 "a").db.data ∧
      (handleDataRecvOne envW8 dbW8 "a").db.data.length = dbW8.data.length :=
  C8_unique_preserved envW8 dbW8 "a" (by decide)

/-- C9: messages published in sequence on one topic are taken and
completed by the receive handler strictly in that order: running the loop
on a concatenation first runs the whole prefix (threading the store
through it), then the suffix, and the processed trace of a surviving run
is exactly the input sequence — no reordering. -/
theorem C9_fifo_order (env : RecvEnv) (db : DB) (ms1 ms2 : List String)
    (h : (runRecvLoop env db ms1).completed = true) :
    (runRecvLoop env db ms1).processed = ms1 ∧
    runRecvLoop env db (ms1 ++ ms2) =
      ⟨(runRecvLoop env (runRecvLoop env db ms1).db ms2).db,
       (runRecvLoop env db ms1).emits ++
         (runRecvLoop env (runRecvLoop env db ms1).db ms2).emits,
       ms1 ++ (runRecvLoop env (runRecvLoop env db ms1).db ms2).processed,
       (runRecvLoop env (runRecvLoop env db ms1).db ms2).completed⟩ := by
  induction ms1 generalizing db with
  | nil => exact ⟨rfl, rfl⟩
  | cons m ms ih =>
    cases hout : (handleDataRecvOne env db m).outcome with
    | panicked =>
      exfalso
      have : (runRecvLoop env db (m :: ms)).completed = false := by
        simp only [runRecvLoop, hout]
      rw [this] at h
      exact Bool.false_ne_true h
    | ok =>
      rw [runRecvLoop_cons_ok env db m ms hout] at h
      obtain ⟨ihp, ihe⟩ := ih (handleDataRecvOne env db m).db h
      constructor
      · rw [runRecvLoop_cons_ok env db m ms hout]
        simpa using ihp
      · have hcons : (m :: ms) ++ ms2 = m :: (ms ++ ms2) := rfl
        rw [hcons, runRecvLoop_cons_ok env db m (ms ++ ms2) hout, ihe,
          runRecvLoop_cons_ok env db m ms hout]
        simp

def dbW9 : DB := ⟨[], []⟩

def envW9 : RecvEnv :=
  ⟨true, false, false, fun _ => none, fun _ => HTTPRes.transportErr⟩

theorem C9_witness :
    ((runRecvLoop envW9 dbW9 ["a"]).processed = ["a"] ∧
     runRecvLoop envW9 dbW9 (["a"] ++ ["b"]) =
      ⟨(runRecvLoop envW9 (runRecvLoop envW9 dbW9 ["a"]).db ["b"]).db,
       (runRecvLoop envW9 dbW9 ["a"]).emits ++
         (runRecvLoop envW9 (runRecvLoop envW9 dbW9 ["a"]).db ["b"]).emits,
       ["a"] ++ (runRecvLoop envW9 (runRecvLoop envW9 dbW9 ["a"]).db ["b"]).processed,
       (runRecvLoop envW9 (runRecvLoop envW9 dbW9 ["a"]).db ["b"]).completed⟩) :=
  C9_fifo_order envW9 dbW9 ["a"] ["b"] (by decide)

/-- C10: on the return path the worker lookup result is used without an
absence check; when no Worker record's Handler equals the original
message's Directive, the unconditional type assertion panics the handler —
there is no "undeliverable" branch analogous to the receive path's, no
HTTP call is made, and no retirement value is emitted for that reply. -/
theorem C10_missing_worker_panics (env : ReturnEnv) (db : DB) (id : String)
    (reply orig : Data)
    (hf1 : env.replyLookupErr = false) (hf2 : env.origLookupErr = false)
    (hf3 : env.workerLookupErr = false)
    (h1 : firstData db id = some reply)
    (h2 : firstData db reply.ResponseTo = some orig)
    (h3 : firstWorker db orig.Directive = none) :
    handleDataReturnOne env db id = ⟨[], [], Outcome.panicked⟩ := by
  simp [handleDataReturnOne, hf1, hf2, hf3, h1, h2, h3]

def dbW10 : DB :=
  ⟨[⟨"r2", "o2", "u", [], []⟩, ⟨"o2", "", "ghost", [], []⟩], []⟩

def envW10 : ReturnEnv := ⟨false, false, false, fun _ => HTTPRes.resp 200 []⟩

theorem C10_witness :
    handleDataReturnOne envW10 dbW10 "r2" = ⟨[], [], Outcome.panicked⟩ :=
  C10_missing_worker_panics envW10 dbW10 "r2" ⟨"r2", "o2", "u", [], []⟩
    ⟨"o2", "", "ghost", [], []⟩ rfl rfl rfl (by decide) (by decide) (by decide)

end Yggdrasil
